import Mathlib

/-!
# sysinfo-go: a verification development

A shallow embedding of `sys-info.go` (package `main`): the disk usage query
`DiskUsage`, the snapshot collector `getSysData` and the HTTP responder
`sysHandler`, followed by theorems about them.

Conventions of the embedding.

* A Go `uint64` is a natural number below `2^64`; every arithmetic operation
  of the source on `uint64` is reduced modulo `2^64` explicitly.
* A Go `error` is an `Option String`: `none` is `nil`.
* A Go pointer result `*T` of a library call is an `Option T`: `none` is `nil`.
  Reading a field through a nil pointer panics; functions that can panic
  return `Except Panic _`.
* The operating system and the gopsutil library are the record `World`: what
  each of the five external queries returns during one request.
-/

set_option autoImplicit false

namespace SysInfo

/-! ## Machine integers -/

/-- Number of values of a Go `uint64`. -/
def U64 : Nat := 2 ^ 64

/-- Go conversion `uint64(x)` of a signed integer: two's complement wrap. -/
def toUint64 (x : Int) : Nat := (x % (2 ^ 64 : Int)).toNat

/-- Go `a * b` on `uint64`. -/
def mul64 (a b : Nat) : Nat := (a * b) % U64

/-- Go `a - b` on `uint64` (wraps below zero). -/
def sub64 (a b : Nat) : Nat := (a % U64 + (U64 - b % U64)) % U64

/-! ## Data model (`sys-info.go`, lines 16-54) -/

/-- A Go `error` value; `none` is `nil`. -/
abbrev GoError := Option String

/-- The fields of `syscall.Statfs_t` that `DiskUsage` reads (linux/amd64:
`Blocks uint64`, `Bfree uint64`, `Bsize int64`). -/
structure Statfs_t where
  Bsize : Int
  Blocks : Nat
  Bfree : Nat
  deriving DecidableEq, Repr

/-- The type `disk`: the value type of the map `System.Disks`. -/
structure disk where
  All : Nat
  Free : Nat
  Used : Nat
  deriving DecidableEq, Repr

/-- The type `DiskStatus`: the result of `DiskUsage`. -/
structure DiskStatus where
  All : Nat
  Used : Nat
  Free : Nat
  deriving DecidableEq, Repr

/-- What `syscall.Statfs(path, &fs)` does during one request: the contents of
`fs` after the call, and the returned error. -/
abbrev StatfsCall := String → Statfs_t × GoError

/-- The function `DiskUsage` (lines 57-67). The named result `diskstatus`
starts at its zero value and is returned unchanged when the call fails. -/
def DiskUsage (statfs : StatfsCall) (path : String) : DiskStatus :=
  let diskstatus : DiskStatus := { All := 0, Used := 0, Free := 0 }
  let (fs, err) := statfs path
  if err ≠ none then
    diskstatus
  else
    let diskstatus := { diskstatus with All := mul64 fs.Blocks (toUint64 fs.Bsize) }
    let diskstatus := { diskstatus with Free := mul64 fs.Bfree (toUint64 fs.Bsize) }
    let diskstatus := { diskstatus with Used := sub64 diskstatus.All diskstatus.Free }
    diskstatus

/-! ## The snapshot record -/

/-- A Go `float64`, by its IEEE-754 bit pattern. The program never computes
with floats; it copies them and hands them to the JSON encoder. -/
structure Float64 where
  bits : Nat
  deriving DecidableEq, Repr

/-- The zero value `0.0` of a `float64`. -/
def Float64.zero : Float64 := ⟨0⟩

/-- Holds when the value is a NaN or an infinity (exponent field all ones):
the values `math.IsNaN(f) || math.IsInf(f, 0)`. -/
def Float64.isNaNOrInf (f : Float64) : Bool := (f.bits / 2 ^ 52) % 2 ^ 11 == 2047

/-- The anonymous struct of the field `System.Host`. -/
structure SystemHost where
  Hostname : String
  OS : String
  Platform : String
  PlatformFamily : String
  PlatformVersion : String
  KernelVersion : String
  deriving DecidableEq, Repr

/-- The anonymous struct of the field `System.CPU.Load`. -/
structure SystemLoad where
  Load1 : Float64
  Load5 : Float64
  Load15 : Float64
  deriving DecidableEq, Repr

/-- The anonymous struct of the field `System.CPU`. -/
structure SystemCPU where
  Cores : Int
  Load : SystemLoad
  deriving DecidableEq, Repr

/-- The anonymous struct of the field `System.Mem`. -/
structure SystemMem where
  Total : Nat
  Free : Nat
  Available : Nat
  UsedPercent : Float64
  deriving DecidableEq, Repr

/-- The type `System` (lines 17-42). The map `Disks` is an association list
with distinct keys; `getSysData` always allocates it with `make`, so the nil
map is not represented. -/
structure System where
  Host : SystemHost
  CPU : SystemCPU
  Mem : SystemMem
  Disks : List (String × disk)
  Error : String
  deriving DecidableEq, Repr

/-- The value of `System{}` with `Disks` set to `make(map[string]disk)`:
every other field at its zero value. -/
def System.zero : System :=
  { Host := { Hostname := "", OS := "", Platform := "", PlatformFamily := "",
              PlatformVersion := "", KernelVersion := "" }
    CPU := { Cores := 0, Load := { Load1 := Float64.zero, Load5 := Float64.zero, Load15 := Float64.zero } }
    Mem := { Total := 0, Free := 0, Available := 0, UsedPercent := Float64.zero }
    Disks := []
    Error := "" }

/-- Go map read `m[k]` with the comma-ok form. -/
def mapGet {α : Type} (m : List (String × α)) (k : String) : Option α :=
  match m with
  | [] => none
  | (k1, v) :: rest => if k1 = k then some v else mapGet rest k

/-- Go map write `m[k] = v`: replaces the value of an existing key, adds the
key otherwise. -/
def mapSet {α : Type} (m : List (String × α)) (k : String) (v : α) : List (String × α) :=
  match m with
  | [] => [(k, v)]
  | (k1, v1) :: rest => if k1 = k then (k, v) :: rest else (k1, v1) :: mapSet rest k v

/-- The keys of a Go map. -/
def mapKeys {α : Type} (m : List (String × α)) : List String := m.map Prod.fst

/-! ## The external queries -/

namespace mem

/-- The fields of gopsutil `mem.VirtualMemoryStat` that the program reads. -/
structure VirtualMemoryStat where
  Total : Nat
  Available : Nat
  UsedPercent : Float64
  Free : Nat
  deriving DecidableEq, Repr

end mem

namespace cpu

/-- An entry of the slice gopsutil `cpu.Info()` returns; the program only
counts the entries. -/
structure InfoStat where
  CPU : Int
  ModelName : String
  deriving DecidableEq, Repr

end cpu

namespace load

/-- The type gopsutil `load.AvgStat`. -/
structure AvgStat where
  Load1 : Float64
  Load5 : Float64
  Load15 : Float64
  deriving DecidableEq, Repr

end load

namespace host

/-- The fields of gopsutil `host.InfoStat` that the program reads. -/
structure InfoStat where
  Hostname : String
  OS : String
  Platform : String
  PlatformFamily : String
  PlatformVersion : String
  KernelVersion : String
  deriving DecidableEq, Repr

end host

/-- What the five external queries return during one request, as Go return
values: `syscall.Statfs` fills a struct and returns an error;
`mem.VirtualMemory() (*VirtualMemoryStat, error)`,
`cpu.Info() ([]InfoStat, error)`, `load.Avg() (*AvgStat, error)` and
`host.Info() (*InfoStat, error)` return a pointer or slice and an error. -/
structure World where
  statfs : StatfsCall
  virtualMemory : Option mem.VirtualMemoryStat × GoError
  cpuInfo : List cpu.InfoStat × GoError
  loadAvg : Option load.AvgStat × GoError
  hostInfo : Option host.InfoStat × GoError

/-- A run-time panic of the Go program. -/
inductive Panic where
  | nilDereference (line : Nat)
  deriving DecidableEq, Repr

/-! ## JSON encoding (`encoding/json` applied to `*System`) -/

/-- A JSON document as `encoding/json` builds it for this program: an object
keeps its members in the order the encoder writes them. -/
inductive Json where
  | null
  | str (s : String)
  | int (n : Int)
  | float (f : Float64)
  | obj (members : List (String × Json))

/-- The two leaf encoders of the Go library, taken as given: how
`encoding/json` quotes and escapes a string, and how it formats a finite
`float64`. -/
structure Encoders where
  quote : String → String
  formatFloat : Float64 → String

/-- Member lookup in a JSON object: what a client obtains for `doc[key]`. -/
def Json.get (doc : Json) (key : String) : Option Json :=
  match doc with
  | .obj members => mapGet members key
  | _ => none

/-- The member names of a JSON object, in document order. -/
def Json.keys (doc : Json) : List String :=
  match doc with
  | .obj members => mapKeys members
  | _ => []

mutual
/-- Holds when the encoder rejects the document with an
`UnsupportedValueError`: some float in it is a NaN or an infinity. -/
def Json.unsupported : Json → Bool
  | .null => false
  | .str _ => false
  | .int _ => false
  | .float f => f.isNaNOrInf
  | .obj members => unsupportedMembers members
/-- The member-list part of `Json.unsupported`. -/
def unsupportedMembers : List (String × Json) → Bool
  | [] => false
  | (_, v) :: rest => v.unsupported || unsupportedMembers rest
end

mutual
/-- The text of a document as `json.Indent` lays it out: `cur` is what
begins each line at the current depth (the line start followed by one copy of
`indent` per level); an empty object is `{}`. -/
def Json.render (enc : Encoders) (indent : String) (cur : String) : Json → String
  | .null => "null"
  | .str s => enc.quote s
  | .int n => toString n
  | .float f => enc.formatFloat f
  | .obj [] => "\x7b\x7d"
  | .obj (m :: ms) =>
      "\x7b" ++ renderMembers enc indent (cur ++ indent) (m :: ms) ++ "\n" ++ cur ++ "\x7d"
/-- The members of an object, each on a line of its own, separated by commas. -/
def renderMembers (enc : Encoders) (indent : String) (cur : String) :
    List (String × Json) → String
  | [] => ""
  | [(k, v)] => "\n" ++ cur ++ enc.quote k ++ ": " ++ v.render enc indent cur
  | (k, v) :: m :: rest =>
      "\n" ++ cur ++ enc.quote k ++ ": " ++ v.render enc indent cur ++ ","
        ++ renderMembers enc indent cur (m :: rest)
end

/-- Inserts a map entry into a list sorted by key. -/
def insertByKey {α : Type} (e : String × α) : List (String × α) → List (String × α)
  | [] => [e]
  | e1 :: rest => if e.1 < e1.1 then e :: e1 :: rest else e1 :: insertByKey e rest

/-- The entries of a Go map in the order `encoding/json` writes them: sorted
by key. -/
def sortByKey {α : Type} (m : List (String × α)) : List (String × α) :=
  m.foldr insertByKey []

/-- The JSON object of a `disk` value. The struct has no field tags, so the
member names are the Go field names. -/
def disk.toJson (d : disk) : Json :=
  .obj [("All", .int d.All), ("Free", .int d.Free), ("Used", .int d.Used)]

/-- The JSON object of a `System` value, member names taken from the field
tags of lines 17-42; the field `Disks` carries no tag, so its member name is
the Go field name. -/
def System.toJson (s : System) : Json :=
  .obj [
    ("host", .obj [
      ("hostname", .str s.Host.Hostname),
      ("os", .str s.Host.OS),
      ("platform", .str s.Host.Platform),
      ("platformFamily", .str s.Host.PlatformFamily),
      ("platformVersion", .str s.Host.PlatformVersion),
      ("kernelVersion", .str s.Host.KernelVersion)]),
    ("cpu", .obj [
      ("cores", .int s.CPU.Cores),
      ("load", .obj [
        ("load1", .float s.CPU.Load.Load1),
        ("load5", .float s.CPU.Load.Load5),
        ("load15", .float s.CPU.Load.Load15)])]),
    ("memory", .obj [
      ("total", .int s.Mem.Total),
      ("free", .int s.Mem.Free),
      ("available", .int s.Mem.Available),
      ("usedPercent", .float s.Mem.UsedPercent)]),
    ("Disks", .obj ((sortByKey s.Disks).map fun e => (e.1, e.2.toJson))),
    ("error", .str s.Error)]

/-- The document `encoding/json` builds for a `*System`: `null` for nil. -/
def pointerToJson (v : Option System) : Json :=
  match v with
  | none => .null
  | some s => s.toJson

/-- The call `json.MarshalIndent(v, pfx, indent)` on a `*System`: the bytes and
the error. On an unsupported value the bytes are nil (written as the empty
string) and the error is set. -/
def MarshalIndent (enc : Encoders) (v : Option System) (pfx indent : String) :
    String × GoError :=
  if (pointerToJson v).unsupported then
    ("", some "json: unsupported value")
  else
    ((pointerToJson v).render enc indent pfx, none)

/-! ## The HTTP response writer (`net/http`) -/

/-- The state of an `http.ResponseWriter`: the header map the handler edits,
whether the status line and headers have gone out, the status code and the
header snapshot that went out, the codes passed to explicit `WriteHeader`
calls, and the body bytes written. -/
structure ResponseWriter where
  header : List (String × String)
  wroteHeader : Bool
  status : Nat
  sentHeader : List (String × String)
  explicitCodes : List Nat
  body : String
  deriving DecidableEq, Repr

/-- The writer a handler receives for a new request. -/
def ResponseWriter.fresh : ResponseWriter :=
  { header := [], wroteHeader := false, status := 0, sentHeader := [],
    explicitCodes := [], body := "" }

/-- The call `w.Header().Set(key, value)` (both keys used by the program are
already in canonical form). -/
def ResponseWriter.setHeader (w : ResponseWriter) (key value : String) : ResponseWriter :=
  { w with header := mapSet w.header key value }

/-- Sends the status line and the current header map, once. -/
def ResponseWriter.sendHeader (w : ResponseWriter) (code : Nat) : ResponseWriter :=
  if w.wroteHeader then w
  else { w with wroteHeader := true, status := code, sentHeader := w.header }

/-- The call `w.WriteHeader(code)`. -/
def ResponseWriter.WriteHeader (w : ResponseWriter) (code : Nat) : ResponseWriter :=
  { w.sendHeader code with explicitCodes := w.explicitCodes ++ [code] }

/-- The call `w.Write(buffer)`: the first write sends status 200 implicitly
when `WriteHeader` has not been called. -/
def ResponseWriter.Write (w : ResponseWriter) (buffer : String) : ResponseWriter :=
  let w := w.sendHeader 200
  { w with body := w.body ++ buffer }

/-- The library function `http.Error(w, error, code)`. -/
def httpError (w : ResponseWriter) (error : String) (code : Nat) : ResponseWriter :=
  let w := w.setHeader "Content-Type" "text/plain; charset=utf-8"
  let w := w.setHeader "X-Content-Type-Options" "nosniff"
  let w := w.WriteHeader code
  w.Write (error ++ "\n")

/-! ## The collector and the responder -/

/-- The fixed list `drives` of `getSysData` (line 92). -/
def drives : List String := ["/"]

/-- What a call of `getSysData` that returns leaves behind: the two return
values `sys` and `err`, and the text printed on standard output. -/
structure SysData where
  sys : Option System
  err : GoError
  stdout : String
  deriving DecidableEq, Repr

/-- The body of the loop over `drives` (lines 96-106). -/
def storeDrive (w : World) (sys : System) (drive : String) : System :=
  let dUsage := DiskUsage w.statfs drive
  let d : disk := { All := 0, Free := 0, Used := 0 }
  let d := { d with All := dUsage.All }
  let d := { d with Free := dUsage.Free }
  let d := { d with Used := dUsage.Used }
  { sys with Disks := mapSet sys.Disks drive d }

/-- The function `getSysData` (lines 86-135). The four library calls discard
their error; the results of `mem.VirtualMemory`, `load.Avg` and `host.Info`
are pointers, read at lines 109, 118 and 123. -/
def getSysData (enc : Encoders) (w : World) : Except Panic SysData :=
  let sys : System := System.zero
  let sys := drives.foldl (storeDrive w) sys
  match w.virtualMemory.1 with
  | none => .error (Panic.nilDereference 109)
  | some virtualMemory =>
    let sys := { sys with Mem := { sys.Mem with Total := virtualMemory.Total } }
    let sys := { sys with Mem := { sys.Mem with Free := virtualMemory.Free } }
    let sys := { sys with Mem := { sys.Mem with Available := virtualMemory.Available } }
    let sys := { sys with Mem := { sys.Mem with UsedPercent := virtualMemory.UsedPercent } }
    let cpu := w.cpuInfo.1
    let sys := { sys with CPU := { sys.CPU with Cores := (cpu.length : Int) } }
    match w.loadAvg.1 with
    | none => .error (Panic.nilDereference 118)
    | some loadAvg =>
      let sys := { sys with CPU := { sys.CPU with Load := { sys.CPU.Load with Load1 := loadAvg.Load1 } } }
      let sys := { sys with CPU := { sys.CPU with Load := { sys.CPU.Load with Load5 := loadAvg.Load5 } } }
      let sys := { sys with CPU := { sys.CPU with Load := { sys.CPU.Load with Load15 := loadAvg.Load15 } } }
      match w.hostInfo.1 with
      | none => .error (Panic.nilDereference 123)
      | some hostInfo =>
        let sys := { sys with Host := { sys.Host with Hostname := hostInfo.Hostname } }
        let sys := { sys with Host := { sys.Host with OS := hostInfo.OS } }
        let sys := { sys with Host := { sys.Host with Platform := hostInfo.Platform } }
        let sys := { sys with Host := { sys.Host with PlatformFamily := hostInfo.PlatformFamily } }
        let sys := { sys with Host := { sys.Host with PlatformVersion := hostInfo.PlatformVersion } }
        let sys := { sys with Host := { sys.Host with KernelVersion := hostInfo.KernelVersion } }
        let buffer := (MarshalIndent enc (some sys) "" "    ").1
        .ok { sys := some sys, err := none, stdout := buffer ++ "\n" }

/-- An incoming request; the handler does not read it. -/
structure Request where
  Method : String
  Path : String
  deriving DecidableEq, Repr

/-- The function `sysHandler` (lines 69-84), run on the writer `rw`: the
writer after the handler, unless the handler panics. -/
def sysHandler (enc : Encoders) (w : World) (rw : ResponseWriter) (_r : Request) :
    Except Panic ResponseWriter :=
  match getSysData enc w with
  | .error p => .error p
  | .ok data =>
    if data.err ≠ none then
      match data.sys with
      | none => .error (Panic.nilDereference 74)
      | some sys => .ok (httpError rw sys.Error 400)
    else
      let buffer := (MarshalIndent enc data.sys "" "    ").1
      let rw := rw.setHeader "Content-Type" "application/json"
      let rw := rw.setHeader "Access-Control-Allow-Origin" "*"
      .ok (rw.Write buffer)

/-! ## Sample inputs -/

/-- An instance of the leaf encoders for evaluating the model on sample
inputs: quoting without escapes, and every float written as `0`. -/
def sampleEncoders : Encoders :=
  { quote := fun s => "\"" ++ s ++ "\"", formatFloat := fun _ => "0" }

/-- A host on which every query succeeds: `/` has 1000 blocks of 4096 bytes,
400 of them free; every other path is unknown to the file system. -/
def sampleWorld : World :=
  { statfs := fun p =>
      if p = "/" then ({ Bsize := 4096, Blocks := 1000, Bfree := 400 }, none)
      else ({ Bsize := 0, Blocks := 0, Bfree := 0 }, some "no such file or directory")
    virtualMemory := (some { Total := 8192, Available := 4096, UsedPercent := Float64.zero, Free := 2048 }, none)
    cpuInfo := ([{ CPU := 0, ModelName := "cpu" }, { CPU := 1, ModelName := "cpu" }], none)
    loadAvg := (some { Load1 := Float64.zero, Load5 := Float64.zero, Load15 := Float64.zero }, none)
    hostInfo := (some { Hostname := "h", OS := "linux", Platform := "ubuntu",
                        PlatformFamily := "debian", PlatformVersion := "22.04",
                        KernelVersion := "6.1" }, none) }

/-- The snapshot `getSysData` assembles on the sample host. -/
def sampleSystem : System :=
  { Host := { Hostname := "h", OS := "linux", Platform := "ubuntu",
              PlatformFamily := "debian", PlatformVersion := "22.04", KernelVersion := "6.1" }
    CPU := { Cores := 2, Load := { Load1 := Float64.zero, Load5 := Float64.zero, Load15 := Float64.zero } }
    Mem := { Total := 8192, Free := 2048, Available := 4096, UsedPercent := Float64.zero }
    Disks := [("/", { All := 4096000, Free := 1638400, Used := 2457600 })]
    Error := "" }

/-- What `getSysData` returns on the sample host. -/
def sampleData : SysData :=
  { sys := some sampleSystem
    err := none
    stdout := (MarshalIndent sampleEncoders (some sampleSystem) "" "    ").1 ++ "\n" }

/-- The sample host with the statistics call failing for every path. -/
def rootDownWorld : World :=
  { sampleWorld with
    statfs := fun _ => ({ Bsize := 0, Blocks := 0, Bfree := 0 }, some "permission denied") }

/-- What `getSysData` returns on `rootDownWorld`. -/
def rootDownData : SysData :=
  { sys := some { sampleSystem with Disks := [("/", { All := 0, Free := 0, Used := 0 })] }
    err := none
    stdout := (MarshalIndent sampleEncoders
      (some { sampleSystem with Disks := [("/", { All := 0, Free := 0, Used := 0 })] })
      "" "    ").1 ++ "\n" }

/-- The sample host with a root file system of `2^52` blocks of 4096 bytes,
one of them free: the total is `2^64` bytes. -/
def wrapWorld : World :=
  { sampleWorld with
    statfs := fun _ => ({ Bsize := 4096, Blocks := 2 ^ 52, Bfree := 1 }, none) }

/-- The snapshot `getSysData` assembles on `wrapWorld`. -/
def wrapSystem : System :=
  { sampleSystem with
    Disks := [("/", { All := 0, Free := 4096, Used := 18446744073709547520 })] }

/-- What `getSysData` returns on `wrapWorld`. -/
def wrapData : SysData :=
  { sys := some wrapSystem
    err := none
    stdout := (MarshalIndent sampleEncoders (some wrapSystem) "" "    ").1 ++ "\n" }

/-- The sample host with `mem.VirtualMemory` failing: nil result and an error. -/
def memDownWorld : World :=
  { sampleWorld with virtualMemory := (none, some "meminfo unreadable") }

/-- The sample host with `load.Avg` failing: nil result and an error. -/
def loadDownWorld : World :=
  { sampleWorld with loadAvg := (none, some "loadavg unreadable") }

/-- The sample host with `host.Info` failing: nil result and an error. -/
def hostDownWorld : World :=
  { sampleWorld with hostInfo := (none, some "host information unavailable") }

/-- The sample host with `cpu.Info` failing: nil slice and an error. -/
def cpuDownWorld : World :=
  { sampleWorld with cpuInfo := ([], some "cpuinfo unreadable") }

/-- The sample host with `cpu.Info` returning three entries and an error. -/
def partialCpuWorld : World :=
  { sampleWorld with
    cpuInfo := ([{ CPU := 0, ModelName := "cpu" }, { CPU := 1, ModelName := "cpu" },
                 { CPU := 2, ModelName := "cpu" }], some "cpuinfo: malformed entry") }

/-- What `getSysData` returns on `partialCpuWorld`. -/
def partialCpuData : SysData :=
  { sys := some { sampleSystem with CPU := { sampleSystem.CPU with Cores := 3 } }
    err := none
    stdout := (MarshalIndent sampleEncoders
      (some { sampleSystem with CPU := { sampleSystem.CPU with Cores := 3 } })
      "" "    ").1 ++ "\n" }

/-- What `getSysData` returns on `cpuDownWorld`. -/
def cpuDownData : SysData :=
  { sys := some { sampleSystem with CPU := { sampleSystem.CPU with Cores := 0 } }
    err := none
    stdout := (MarshalIndent sampleEncoders
      (some { sampleSystem with CPU := { sampleSystem.CPU with Cores := 0 } })
      "" "    ").1 ++ "\n" }

/-- The sample host with memory statistics whose `UsedPercent` is a NaN (the
quotient `0/0` of a zero total). -/
def nanWorld : World :=
  { sampleWorld with
    virtualMemory := (some { Total := 0, Available := 0,
                             UsedPercent := ⟨0x7FF8000000000000⟩, Free := 0 }, none) }

/-- The snapshot `getSysData` assembles on `nanWorld`. -/
def nanSystem : System :=
  { sampleSystem with
    Mem := { Total := 0, Free := 0, Available := 0, UsedPercent := ⟨0x7FF8000000000000⟩ } }

/-- What `getSysData` returns on `nanWorld`. -/
def nanData : SysData :=
  { sys := some nanSystem
    err := none
    stdout := (MarshalIndent sampleEncoders (some nanSystem) "" "    ").1 ++ "\n" }

/-- The body the handler writes on the sample host. -/
def sampleBody : String :=
  "\x7b\n    \"host\": \x7b\n        \"hostname\": \"h\",\n        \"os\": \"linux\",\n        \"platform\": \"ubuntu\",\n        \"platformFamily\": \"debian\",\n        \"platformVersion\": \"22.04\",\n        \"kernelVersion\": \"6.1\"\n    \x7d,\n    \"cpu\": \x7b\n        \"cores\": 2,\n        \"load\": \x7b\n            \"load1\": 0,\n            \"load5\": 0,\n            \"load15\": 0\n        \x7d\n    \x7d,\n    \"memory\": \x7b\n        \"total\": 8192,\n        \"free\": 2048,\n        \"available\": 4096,\n        \"usedPercent\": 0\n    \x7d,\n    \"Disks\": \x7b\n        \"/\": \x7b\n            \"All\": 4096000,\n            \"Free\": 1638400,\n            \"Used\": 2457600\n        \x7d\n    \x7d,\n    \"error\": \"\"\n\x7d"

/-! ## Lemmas on the arithmetic and on `DiskUsage` -/

theorem toUint64_of_lt (b : Int) (h0 : 0 ≤ b) (h1 : b < 2 ^ 64) : toUint64 b = b.toNat := by
  unfold toUint64
  rw [Int.emod_eq_of_lt h0 h1]

theorem mul64_of_lt (a b : Nat) (h : a * b < 2 ^ 64) : mul64 a b = a * b := by
  unfold mul64 U64
  exact Nat.mod_eq_of_lt h

theorem sub64_of_le (a b : Nat) (hab : b ≤ a) (ha : a < 2 ^ 64) : sub64 a b = a - b := by
  unfold sub64 U64
  have hb : b < 2 ^ 64 := lt_of_le_of_lt hab ha
  rw [Nat.mod_eq_of_lt ha, Nat.mod_eq_of_lt hb]
  norm_num at ha hb ⊢
  omega

theorem DiskUsage_of_error (statfs : StatfsCall) (path : String)
    (h : (statfs path).2 ≠ none) :
    DiskUsage statfs path = { All := 0, Used := 0, Free := 0 } := by
  unfold DiskUsage
  simp [h]

theorem DiskUsage_of_success (statfs : StatfsCall) (path : String)
    (h : (statfs path).2 = none) :
    DiskUsage statfs path =
      { All := mul64 (statfs path).1.Blocks (toUint64 (statfs path).1.Bsize)
        Used := sub64 (mul64 (statfs path).1.Blocks (toUint64 (statfs path).1.Bsize))
                  (mul64 (statfs path).1.Bfree (toUint64 (statfs path).1.Bsize))
        Free := mul64 (statfs path).1.Bfree (toUint64 (statfs path).1.Bsize) } := by
  unfold DiskUsage
  simp [h]

theorem DiskUsage_used (statfs : StatfsCall) (path : String) :
    (DiskUsage statfs path).Used
      = sub64 (DiskUsage statfs path).All (DiskUsage statfs path).Free := by
  by_cases h : (statfs path).2 = none
  · rw [DiskUsage_of_success statfs path h]
  · rw [DiskUsage_of_error statfs path h]
    decide

/-! ## Lemmas on `getSysData` -/

/-- What a returning call of `getSysData` returns: the three pointer results
were non-nil, the error is nil and the snapshot holds the copied values. -/
theorem getSysData_ok (enc : Encoders) (w : World) (data : SysData)
    (h : getSysData enc w = .ok data) :
    ∃ vm la hi, w.virtualMemory.1 = some vm ∧ w.loadAvg.1 = some la ∧ w.hostInfo.1 = some hi
      ∧ data.err = none
      ∧ data.sys = some
          { Host := { Hostname := hi.Hostname, OS := hi.OS, Platform := hi.Platform,
                      PlatformFamily := hi.PlatformFamily,
                      PlatformVersion := hi.PlatformVersion,
                      KernelVersion := hi.KernelVersion }
            CPU := { Cores := (w.cpuInfo.1.length : Int),
                     Load := { Load1 := la.Load1, Load5 := la.Load5, Load15 := la.Load15 } }
            Mem := { Total := vm.Total, Free := vm.Free, Available := vm.Available,
                     UsedPercent := vm.UsedPercent }
            Disks := [("/", { All := (DiskUsage w.statfs "/").All,
                              Free := (DiskUsage w.statfs "/").Free,
                              Used := (DiskUsage w.statfs "/").Used })]
            Error := "" } := by
  unfold getSysData at h
  cases hvm : w.virtualMemory.1 with
  | none => simp [hvm] at h
  | some vm =>
    cases hla : w.loadAvg.1 with
    | none => simp [hvm, hla] at h
    | some la =>
      cases hhi : w.hostInfo.1 with
      | none => simp [hvm, hla, hhi] at h
      | some hi =>
        simp only [hvm, hla, hhi] at h
        refine ⟨vm, la, hi, rfl, rfl, rfl, ?_, ?_⟩
        · cases h; rfl
        · cases h
          simp [drives, storeDrive, System.zero, mapSet]

/-- A call of `getSysData` returns when the three pointer results are
non-nil. -/
theorem getSysData_returns (enc : Encoders) (w : World)
    (hvm : w.virtualMemory.1 ≠ none) (hla : w.loadAvg.1 ≠ none) (hhi : w.hostInfo.1 ≠ none) :
    ∃ data, getSysData enc w = .ok data := by
  obtain ⟨vm, hvm⟩ := Option.ne_none_iff_exists'.mp hvm
  obtain ⟨la, hla⟩ := Option.ne_none_iff_exists'.mp hla
  obtain ⟨hi, hhi⟩ := Option.ne_none_iff_exists'.mp hhi
  unfold getSysData
  simp [hvm, hla, hhi]

/-! ## Disk usage: the invariant and the byte counts -/

/-- C1. For every path and every outcome of the file-system statistics call,
the result of `DiskUsage` satisfies `Used == All - Free` with the wrapping
subtraction of `uint64`; and every entry of the disk map of a snapshot that
`getSysData` returns satisfies the same equation. -/
theorem diskUsage_used_invariant (statfs : StatfsCall) (path : String) :
    (DiskUsage statfs path).Used
        = sub64 (DiskUsage statfs path).All (DiskUsage statfs path).Free
    ∧ ∀ (enc : Encoders) (w : World) (data : SysData) (sys : System) (key : String) (d : disk),
        getSysData enc w = .ok data → data.sys = some sys → (key, d) ∈ sys.Disks →
        d.Used = sub64 d.All d.Free := by
  refine ⟨DiskUsage_used statfs path, ?_⟩
  intro enc w data sys key d hret hsys hmem
  obtain ⟨vm, la, hi, -, -, -, -, hs⟩ := getSysData_ok enc w data hret
  rw [hs] at hsys
  cases hsys
  simp only [List.mem_singleton, Prod.mk.injEq] at hmem
  obtain ⟨-, rfl⟩ := hmem
  exact DiskUsage_used w.statfs "/"

/-- Witness of C1 on the sample host: the entry stored for `/`. -/
theorem diskUsage_used_invariant_witness :
    getSysData sampleEncoders sampleWorld = .ok sampleData
    ∧ (2457600 : Nat) = sub64 4096000 1638400 :=
  ⟨by rfl,
   (diskUsage_used_invariant sampleWorld.statfs "/").2 sampleEncoders sampleWorld
      sampleData sampleSystem "/" { All := 4096000, Free := 1638400, Used := 2457600 }
      (by rfl) rfl (by simp [sampleSystem])⟩

/-- C2. For a successful statistics call reporting block count `n`, free-block
count `f` and block size `b` with `b >= 0`, `f <= n` and `n*b < 2^64`,
`DiskUsage` returns exactly `All = n*b`, `Free = f*b` and `Used = (n-f)*b`; in
particular a mount with `n*b` equal to 100 GB and `f*b` equal to 40 GB has
`Used` equal to 60 GB (for any size `GB` of a gigabyte). -/
theorem diskUsage_byte_counts (statfs : StatfsCall) (path : String) (n f : Nat) (b : Int)
    (hcall : statfs path = ({ Bsize := b, Blocks := n, Bfree := f }, none))
    (hb : 0 ≤ b) (hf : f ≤ n) (hn : (n : Int) * b < 2 ^ 64) :
    ((DiskUsage statfs path).All : Int) = n * b
    ∧ ((DiskUsage statfs path).Free : Int) = f * b
    ∧ ((DiskUsage statfs path).Used : Int) = ((n : Int) - f) * b
    ∧ ∀ GB : Int, (n : Int) * b = 100 * GB → (f : Int) * b = 40 * GB →
        ((DiskUsage statfs path).Used : Int) = 60 * GB := by
  have herr : (statfs path).2 = none := by rw [hcall]
  obtain ⟨c, rfl⟩ := Int.eq_ofNat_of_zero_le hb
  have hnc : n * c < 2 ^ 64 := by exact_mod_cast hn
  have hfc : f * c ≤ n * c := Nat.mul_le_mul_right c hf
  have hu : mul64 n (toUint64 (c : Int)) = n * c := by
    rcases Nat.eq_zero_or_pos n with h0 | hpos
    · subst h0
      simp [mul64]
    · have hc : c < 2 ^ 64 := lt_of_le_of_lt (Nat.le_mul_of_pos_left c hpos) hnc
      rw [toUint64_of_lt (c : Int) (Int.ofNat_nonneg c) (by exact_mod_cast hc)]
      simpa using mul64_of_lt n c hnc
  have hv : mul64 f (toUint64 (c : Int)) = f * c := by
    rcases Nat.eq_zero_or_pos n with h0 | hpos
    · subst h0
      have hf0 : f = 0 := Nat.le_zero.mp hf
      subst hf0
      simp [mul64]
    · have hc : c < 2 ^ 64 := lt_of_le_of_lt (Nat.le_mul_of_pos_left c hpos) hnc
      rw [toUint64_of_lt (c : Int) (Int.ofNat_nonneg c) (by exact_mod_cast hc)]
      simpa using mul64_of_lt f c (lt_of_le_of_lt hfc hnc)
  have hused : ((n * c - f * c : Nat) : Int) = ((n : Int) - f) * c := by
    rw [Nat.cast_sub hfc]
    push_cast
    ring
  rw [DiskUsage_of_success statfs path herr, hcall]
  simp only [hu, hv, sub64_of_le (n * c) (f * c) hfc hnc]
  refine ⟨by push_cast; rfl, by push_cast; rfl, hused, ?_⟩
  intro GB h100 h40
  rw [hused]
  have : ((n : Int) - f) * c = (n : Int) * c - (f : Int) * c := by ring
  rw [this]
  have h100c : (n : Int) * (c : Int) = 100 * GB := h100
  have h40c : (f : Int) * (c : Int) = 40 * GB := h40
  rw [h100c, h40c]
  ring

/-- Witness of C2: a mount of 100 GB (97656250 blocks of 1024 bytes) with
40 GB free has 60 GB used. -/
theorem diskUsage_byte_counts_witness :
    ((DiskUsage (fun _ => ({ Bsize := 1024, Blocks := 97656250, Bfree := 39062500 }, none))
        "/").Used : Int) = 60 * 1000000000 :=
  (diskUsage_byte_counts
      (fun _ => ({ Bsize := 1024, Blocks := 97656250, Bfree := 39062500 }, none))
      "/" 97656250 39062500 1024 rfl (by decide) (by decide) (by decide)).2.2.2
    1000000000 (by decide) (by decide)

/-! ## Disk usage when the statistics call fails -/

/-- C3. For every path for which the statistics call fails, `DiskUsage`
returns `All = 0`, `Free = 0` and `Used = 0` (its only result; no error is
returned); and the snapshot that `getSysData` builds still holds an entry for
that path, one of the paths of its fixed list, whose three fields are 0. -/
theorem failed_path_zero (enc : Encoders) (w : World) (path : String)
    (hfail : (w.statfs path).2 ≠ none) :
    DiskUsage w.statfs path = { All := 0, Used := 0, Free := 0 }
    ∧ (path ∈ drives → ∀ data : SysData, getSysData enc w = .ok data →
        ∃ sys, data.sys = some sys
          ∧ mapGet sys.Disks path = some { All := 0, Free := 0, Used := 0 }) := by
  have hz := DiskUsage_of_error w.statfs path hfail
  refine ⟨hz, ?_⟩
  intro hmem data hret
  obtain ⟨vm, la, hi, -, -, -, -, hs⟩ := getSysData_ok enc w data hret
  have hp : path = "/" := by simpa [drives] using hmem
  subst hp
  refine ⟨_, hs, ?_⟩
  simp [mapGet, hz]

/-- Witness of C3: a host whose root statistics call fails. -/
theorem failed_path_zero_witness :
    (rootDownWorld.statfs "/").2 ≠ none
    ∧ DiskUsage rootDownWorld.statfs "/" = { All := 0, Used := 0, Free := 0 }
    ∧ ∃ sys, rootDownData.sys = some sys
        ∧ mapGet sys.Disks "/" = some { All := 0, Free := 0, Used := 0 } :=
  have h := failed_path_zero sampleEncoders rootDownWorld "/" (by decide)
  ⟨by decide, h.1, h.2 (by decide) rootDownData (by rfl)⟩

/-! ## Total and free bytes -/

/-- C4, counterexample. A successful statistics call reporting `2^52` blocks
of 4096 bytes, one of them free: the total wraps to 0 and the stored entry has
`All = 0 < Free = 4096`. -/
theorem all_ge_free_counterexample :
    (wrapWorld.statfs "/").2 = none
    ∧ getSysData sampleEncoders wrapWorld = .ok wrapData
    ∧ wrapData.sys = some wrapSystem
    ∧ ∃ d : disk, mapGet wrapSystem.Disks "/" = some d
        ∧ d.All = 0 ∧ d.Free = 4096 ∧ ¬ (d.All ≥ d.Free) := by
  refine ⟨by decide, by rfl, rfl, { All := 0, Free := 4096, Used := 18446744073709547520 },
    by decide, rfl, rfl, by decide⟩

/-- C4, amended. For every path present in the disk map of a returned snapshot
whose statistics call succeeded with a free-block count not above the block
count and with block count times `uint64(block size)` below `2^64`, the entry
satisfies `All >= Free`. -/
theorem all_ge_free (enc : Encoders) (w : World) (data : SysData) (sys : System)
    (path : String) (d : disk)
    (hret : getSysData enc w = .ok data) (hsys : data.sys = some sys)
    (hget : mapGet sys.Disks path = some d)
    (hcall : (w.statfs path).2 = none)
    (hfree : (w.statfs path).1.Bfree ≤ (w.statfs path).1.Blocks)
    (hfit : (w.statfs path).1.Blocks * toUint64 (w.statfs path).1.Bsize < 2 ^ 64) :
    d.All ≥ d.Free := by
  obtain ⟨vm, la, hi, -, -, -, -, hs⟩ := getSysData_ok enc w data hret
  rw [hs] at hsys
  cases hsys
  by_cases hp : "/" = path
  · subst hp
    simp only [mapGet, if_true, Option.some.injEq] at hget
    subst hget
    rw [DiskUsage_of_success w.statfs "/" hcall]
    have hle : (w.statfs "/").1.Bfree * toUint64 (w.statfs "/").1.Bsize
        ≤ (w.statfs "/").1.Blocks * toUint64 (w.statfs "/").1.Bsize :=
      Nat.mul_le_mul_right _ hfree
    show mul64 _ _ ≤ mul64 _ _
    rw [mul64_of_lt _ _ hfit, mul64_of_lt _ _ (lt_of_le_of_lt hle hfit)]
    exact hle
  · simp [mapGet, hp] at hget

/-- Witness of C4 amended on the sample host. -/
theorem all_ge_free_witness :
    getSysData sampleEncoders sampleWorld = .ok sampleData
    ∧ (4096000 : Nat) ≥ 1638400 :=
  ⟨by rfl,
   all_ge_free sampleEncoders sampleWorld sampleData sampleSystem "/"
     { All := 4096000, Free := 1638400, Used := 2457600 }
     (by rfl) rfl (by decide) (by decide) (by decide) (by decide)⟩

/-! ## The collector under failing queries -/

/-- C5, the code at the failing inputs. When `mem.VirtualMemory`, `load.Avg` or
`host.Info` fails with a nil result, `getSysData` does not return: it panics on
the nil pointer at line 109, 118 or 123. -/
theorem getSysData_failed_query_panics (enc : Encoders) :
    getSysData enc memDownWorld = .error (Panic.nilDereference 109)
    ∧ getSysData enc loadDownWorld = .error (Panic.nilDereference 118)
    ∧ getSysData enc hostDownWorld = .error (Panic.nilDereference 123) :=
  ⟨rfl, rfl, rfl⟩

/-- C6. Whenever `getSysData` returns, its error is nil, its snapshot pointer
is non-nil and the snapshot's `Error` field is the empty string. -/
theorem getSysData_no_error (enc : Encoders) (w : World) (data : SysData)
    (hret : getSysData enc w = .ok data) :
    data.err = none ∧ ∃ sys, data.sys = some sys ∧ sys.Error = "" := by
  obtain ⟨vm, la, hi, -, -, -, herr, hs⟩ := getSysData_ok enc w data hret
  exact ⟨herr, _, hs, rfl⟩

/-- Witness of C6 on the sample host. -/
theorem getSysData_no_error_witness :
    getSysData sampleEncoders sampleWorld = .ok sampleData
    ∧ sampleData.err = none ∧ ∃ sys, sampleData.sys = some sys ∧ sys.Error = "" :=
  ⟨by rfl, getSysData_no_error sampleEncoders sampleWorld sampleData (by rfl)⟩

/-! ## The disk map and the core count -/

/-- C8. In every snapshot that `getSysData` returns, the keys of the disk map
are exactly the fixed path list, which is the single key `/`, and the entry
under each key equals the result of `DiskUsage` on that path field for
field. -/
theorem disks_keys_and_entries (enc : Encoders) (w : World) (data : SysData)
    (hret : getSysData enc w = .ok data) :
    ∃ sys, data.sys = some sys
      ∧ mapKeys sys.Disks = drives
      ∧ drives = ["/"]
      ∧ ∀ path, path ∈ drives →
          ∃ d, mapGet sys.Disks path = some d
            ∧ d.All = (DiskUsage w.statfs path).All
            ∧ d.Free = (DiskUsage w.statfs path).Free
            ∧ d.Used = (DiskUsage w.statfs path).Used := by
  obtain ⟨vm, la, hi, -, -, -, -, hs⟩ := getSysData_ok enc w data hret
  refine ⟨_, hs, rfl, rfl, ?_⟩
  intro path hmem
  have hp : path = "/" := by simpa [drives] using hmem
  subst hp
  exact ⟨{ All := (DiskUsage w.statfs "/").All, Free := (DiskUsage w.statfs "/").Free,
           Used := (DiskUsage w.statfs "/").Used }, by simp [mapGet], rfl, rfl, rfl⟩

/-- Witness of C8 on the sample host. -/
theorem disks_keys_and_entries_witness :
    getSysData sampleEncoders sampleWorld = .ok sampleData
    ∧ ∃ sys, sampleData.sys = some sys
      ∧ mapKeys sys.Disks = drives
      ∧ drives = ["/"]
      ∧ ∀ path, path ∈ drives →
          ∃ d, mapGet sys.Disks path = some d
            ∧ d.All = (DiskUsage sampleWorld.statfs path).All
            ∧ d.Free = (DiskUsage sampleWorld.statfs path).Free
            ∧ d.Used = (DiskUsage sampleWorld.statfs path).Used :=
  ⟨by rfl, disks_keys_and_entries sampleEncoders sampleWorld sampleData (by rfl)⟩

/-- C9, counterexample. The CPU information provider returns three entries
together with an error; `getSysData` discards the error and the snapshot has
`cpu.cores = 3`, not 0. -/
theorem cores_zero_on_error_counterexample :
    partialCpuWorld.cpuInfo.2 ≠ none
    ∧ getSysData sampleEncoders partialCpuWorld = .ok partialCpuData
    ∧ ∃ sys, partialCpuData.sys = some sys ∧ sys.CPU.Cores = 3 ∧ sys.CPU.Cores ≠ 0 := by
  refine ⟨by decide, by rfl, _, rfl, rfl, by decide⟩

/-- C9, amended. In every snapshot that `getSysData` returns, `cpu.cores`
equals the length of the list the CPU information provider returned, whether
or not the provider also returned an error; it is 0 when the provider returned
an error and no entries. -/
theorem cores_eq_length (enc : Encoders) (w : World) (data : SysData)
    (hret : getSysData enc w = .ok data) :
    ∃ sys, data.sys = some sys
      ∧ sys.CPU.Cores = (w.cpuInfo.1.length : Int)
      ∧ ∀ e : String, w.cpuInfo = ([], some e) → sys.CPU.Cores = 0 := by
  obtain ⟨vm, la, hi, -, -, -, -, hs⟩ := getSysData_ok enc w data hret
  refine ⟨_, hs, rfl, ?_⟩
  intro e he
  simp [he]

/-- Witness of C9 amended: the sample host with the CPU provider failing. -/
theorem cores_eq_length_witness :
    getSysData sampleEncoders cpuDownWorld = .ok cpuDownData
    ∧ ∃ sys, cpuDownData.sys = some sys ∧ sys.CPU.Cores = 0 :=
  have h := cores_eq_length sampleEncoders cpuDownWorld cpuDownData (by rfl)
  ⟨by rfl, h.choose, h.choose_spec.1, h.choose_spec.2.2 "cpuinfo unreadable" rfl⟩

/-! ## Lemmas on `sysHandler` -/

/-- The response of a fresh writer after the two `Set` calls and the `Write`
of the non-error branch. -/
theorem write_on_fresh (buffer : String) :
    ((ResponseWriter.fresh.setHeader "Content-Type" "application/json").setHeader
        "Access-Control-Allow-Origin" "*").Write buffer
      = { header := [("Content-Type", "application/json"), ("Access-Control-Allow-Origin", "*")]
          wroteHeader := true
          status := 200
          sentHeader := [("Content-Type", "application/json"),
                         ("Access-Control-Allow-Origin", "*")]
          explicitCodes := []
          body := buffer } := by
  simp [ResponseWriter.Write, ResponseWriter.sendHeader, ResponseWriter.setHeader,
    ResponseWriter.fresh, mapSet]

/-- When `getSysData` returns, the handler takes the non-error branch. -/
theorem sysHandler_of_ok (enc : Encoders) (w : World) (rw : ResponseWriter) (r : Request)
    (data : SysData) (hret : getSysData enc w = .ok data) :
    sysHandler enc w rw r
      = .ok (((rw.setHeader "Content-Type" "application/json").setHeader
          "Access-Control-Allow-Origin" "*").Write (MarshalIndent enc data.sys "" "    ").1) := by
  obtain ⟨vm, la, hi, -, -, -, herr, -⟩ := getSysData_ok enc w data hret
  unfold sysHandler
  rw [hret]
  simp only [herr, ne_eq, not_true_eq_false, if_false]

set_option maxRecDepth 100000 in
/-- The indented text of the sample snapshot, evaluated. -/
theorem render_sampleSystem :
    sampleSystem.toJson.render sampleEncoders "    " "" = sampleBody := by
  rfl

/-! ## The responder -/

/-- C7, counterexample. On a host whose memory statistics carry a NaN
`UsedPercent`, `getSysData` returns a snapshot, the encoder rejects it
(`MarshalIndent` returns nil bytes and an error, which the handler discards),
and the handler writes an empty body: not the indented JSON text of the
snapshot. -/
theorem sysHandler_body_counterexample :
    getSysData sampleEncoders nanWorld = .ok nanData
    ∧ nanData.sys = some nanSystem
    ∧ MarshalIndent sampleEncoders (some nanSystem) "" "    "
        = ("", some "json: unsupported value")
    ∧ ∃ rw, sysHandler sampleEncoders nanWorld ResponseWriter.fresh
          { Method := "GET", Path := "/sys" } = .ok rw
        ∧ rw.body = ""
        ∧ rw.body ≠ nanSystem.toJson.render sampleEncoders "    " "" := by
  have hret : getSysData sampleEncoders nanWorld = .ok nanData := by rfl
  have hu : nanSystem.toJson.unsupported = true := by decide
  have hm : MarshalIndent sampleEncoders (some nanSystem) "" "    "
      = ("", some "json: unsupported value") := by
    simp [MarshalIndent, pointerToJson, hu]
  refine ⟨hret, rfl, hm, _, sysHandler_of_ok _ _ _ _ _ hret, ?_, ?_⟩
  · show (ResponseWriter.Write _ (MarshalIndent sampleEncoders (some nanSystem) "" "    ").1).body
      = ""
    rw [hm]
    rfl
  · show (ResponseWriter.Write _ (MarshalIndent sampleEncoders (some nanSystem) "" "    ").1).body
      ≠ _
    rw [hm, write_on_fresh]
    decide

/-- C7, amended. For every request on which `getSysData` returns, the handler
does not take the status-400 branch: the response goes out with the headers
`Content-Type: application/json` and `Access-Control-Allow-Origin: *`, both set
before the body is written, with no explicit status code (implicit 200), and
the body is exactly the bytes `json.MarshalIndent` returned for the snapshot
with indent of four spaces: the indented JSON text when the encoder accepts
the snapshot, and nothing when it rejects it. -/
theorem sysHandler_response (enc : Encoders) (w : World) (r : Request) (data : SysData)
    (hret : getSysData enc w = .ok data) :
    ∃ rw sys, sysHandler enc w ResponseWriter.fresh r = .ok rw
      ∧ data.sys = some sys
      ∧ rw.explicitCodes = []
      ∧ rw.wroteHeader = true
      ∧ rw.status = 200
      ∧ rw.sentHeader
          = [("Content-Type", "application/json"), ("Access-Control-Allow-Origin", "*")]
      ∧ rw.body = (MarshalIndent enc (some sys) "" "    ").1
      ∧ (sys.toJson.unsupported = false → rw.body = sys.toJson.render enc "    " "")
      ∧ (sys.toJson.unsupported = true → rw.body = "") := by
  obtain ⟨vm, la, hi, -, -, -, -, hs⟩ := getSysData_ok enc w data hret
  refine ⟨_, _, sysHandler_of_ok enc w _ r data hret, hs, ?_⟩
  rw [write_on_fresh, hs]
  refine ⟨rfl, rfl, rfl, rfl, rfl, ?_, ?_⟩
  · intro hsup
    simp [MarshalIndent, pointerToJson, hsup]
  · intro hsup
    simp [MarshalIndent, pointerToJson, hsup]

/-- Witness of C7 amended on the sample host. -/
theorem sysHandler_response_witness :
    getSysData sampleEncoders sampleWorld = .ok sampleData
    ∧ ∃ rw sys, sysHandler sampleEncoders sampleWorld ResponseWriter.fresh
          { Method := "GET", Path := "/sys" } = .ok rw
        ∧ sampleData.sys = some sys
        ∧ rw.explicitCodes = []
        ∧ rw.status = 200
        ∧ rw.body = (MarshalIndent sampleEncoders (some sys) "" "    ").1 :=
  have h := sysHandler_response sampleEncoders sampleWorld
    { Method := "GET", Path := "/sys" } sampleData (by rfl)
  ⟨by rfl, h.choose, h.choose_spec.choose, h.choose_spec.choose_spec.1,
    h.choose_spec.choose_spec.2.1, h.choose_spec.choose_spec.2.2.1,
    h.choose_spec.choose_spec.2.2.2.2.1, h.choose_spec.choose_spec.2.2.2.2.2.2.1⟩

/-! ## The member names of the JSON document -/

/-- C10, the code at a sample input. For every snapshot the document the
handler serializes has the top-level member names `host`, `cpu`, `memory`,
`Disks`, `error`: there is no member `disks`; and every per-path entry has the
member names `All`, `Free`, `Used`: there is no member `used`. On the sample
host the body written is the text `sampleBody`. -/
theorem json_disk_member_names :
    (∀ sys : System, sys.toJson.keys = ["host", "cpu", "memory", "Disks", "error"]
        ∧ sys.toJson.get "disks" = none)
    ∧ (∀ d : disk, d.toJson.keys = ["All", "Free", "Used"] ∧ d.toJson.get "used" = none)
    ∧ ∃ rw, sysHandler sampleEncoders sampleWorld ResponseWriter.fresh
          { Method := "GET", Path := "/sys" } = .ok rw
        ∧ rw.body = sampleBody := by
  have hret : getSysData sampleEncoders sampleWorld = .ok sampleData := by rfl
  have hu : sampleSystem.toJson.unsupported = false := by decide
  have hr := render_sampleSystem
  have hm : (MarshalIndent sampleEncoders (some sampleSystem) "" "    ").1 = sampleBody := by
    simp [MarshalIndent, hu, pointerToJson, hr]
  have hk : ∀ sys : System, sys.toJson.get "disks" = none := by
    intro sys
    simp [System.toJson, Json.get, mapGet]
  have hd : ∀ d : disk, d.toJson.get "used" = none := by
    intro d
    simp [disk.toJson, Json.get, mapGet]
  refine ⟨fun sys => ⟨rfl, hk sys⟩, fun d => ⟨rfl, hd d⟩, _,
    sysHandler_of_ok _ _ _ _ _ hret, ?_⟩
  show (ResponseWriter.Write _ (MarshalIndent sampleEncoders (some sampleSystem) "" "    ").1).body
    = _
  rw [hm, write_on_fresh]

end SysInfo
